import Mathlib

/-!
Shallow embedding of `openedx_webhooks/views/jira.py`: the JIRA webhook
handlers that synchronize GitHub pull-request state with JIRA issue state.
Remote HTTP interactions are modelled by explicit environment records holding
the response each outbound call would receive, and every handler returns,
next to its result, the trace of outbound calls it performed.
-/

set_option maxHeartbeats 1000000

/-! String helpers mirroring the Python primitives the source relies on
(`str.lower`, `str.replace`, `int(...)`), written by structural recursion so
that concrete runs reduce inside the kernel. -/

/-- ASCII lowercase of one character, as Python `str.lower` does on ASCII. -/
def lowerChar (c : Char) : Char :=
  if 'A' ≤ c ∧ c ≤ 'Z' then Char.ofNat (c.toNat + 32) else c

/-- ASCII lowercase of a string (Python `str.lower` restricted to ASCII). -/
def lowerStr (s : String) : String :=
  String.mk (s.data.map lowerChar)

/-- Whether the first list is a leading segment of the second. -/
def startsWithChars : List Char → List Char → Bool
  | [], _ => true
  | _ :: _, [] => false
  | p :: ps, c :: cs => p == c && startsWithChars ps cs

/-- Fuel-indexed worker for `pyReplace`; the fuel starts at the length of the
subject list, which each step consumes by at least one character. -/
def replaceCharsAux (pat rep : List Char) : Nat → List Char → List Char
  | _, [] => []
  | 0, l => l
  | fuel + 1, c :: cs =>
    if startsWithChars pat (c :: cs) && !pat.isEmpty then
      rep ++ replaceCharsAux pat rep fuel (List.drop pat.length (c :: cs))
    else c :: replaceCharsAux pat rep fuel cs

/-- Python `s.replace(pat, rep)` for a non-empty pattern: every
non-overlapping occurrence is replaced, left to right. -/
def pyReplace (s pat rep : String) : String :=
  String.mk (replaceCharsAux pat.data rep.data s.data.length s.data)

/-- Decimal digit value of a character, if it is a digit. -/
def digitVal (c : Char) : Option Nat :=
  if '0' ≤ c ∧ c ≤ '9' then some (c.toNat - Char.toNat '0') else none

/-- Parse a non-empty all-digit list as a natural number. -/
def digitsToNat : List Char → Option Nat
  | [] => none
  | cs => cs.foldl (fun acc c =>
      match acc, digitVal c with
      | some n, some d => some (n * 10 + d)
      | _, _ => none) (some 0)

/-- Python `int(s)` on a plain decimal string (optional sign, digits);
`none` models the `ValueError` a non-numeric string raises. -/
def pyInt (s : String) : Option Int :=
  match s.data with
  | '-' :: cs => (digitsToNat cs).map (fun n => -(n : Int))
  | '+' :: cs => (digitsToNat cs).map (fun n => (n : Int))
  | cs => (digitsToNat cs).map (fun n => (n : Int))

/-! Data model: field values, issues, and the identifiers of the two JIRA
custom fields the link resolver reads. -/

/-- Value of a JIRA field as the handlers see it: a JSON string or number. -/
inductive FieldVal
  | str (s : String)
  | num (n : Int)
deriving DecidableEq

/-- Python truthiness of a field value (`""` and `0` are falsy). -/
def FieldVal.truthy : FieldVal → Bool
  | .str s => s ≠ ""
  | .num n => n ≠ 0

/-- String formatting of a field value, as `"{}".format(v)` renders it. -/
def FieldVal.toStr : FieldVal → String
  | .str s => s
  | .num n => toString n

/-- Python truthiness of an optional field value (`None` is falsy). -/
def truthyOpt : Option FieldVal → Bool
  | none => false
  | some v => v.truthy

/-- Render an optional field value as Python string interpolation would. -/
def optStr : Option FieldVal → String
  | none => "None"
  | some v => v.toStr

/-- Python `int(v)` on an optional field value: `None` raises (modelled as
`none`), a string is parsed, a number passes through. -/
def pyIntOfField : Option FieldVal → Option Int
  | none => none
  | some (.str s) => pyInt s
  | some (.num n) => some n

/-- Python truthiness of an optional integer (`None` and `0` are falsy). -/
def intTruthy : Option Int → Bool
  | none => false
  | some n => n ≠ 0

/-- Render an optional integer as Python string interpolation would. -/
def optIntStr : Option Int → String
  | none => "None"
  | some n => toString n

/-- A JIRA issue, restricted to the parts `jira.py` reads: key, self URL,
status name, project key, subtask flag, creator data, the custom-field
mapping (field id to value) and an optional parent-issue key. -/
structure JIssue where
  key : String
  self : String
  statusName : String
  projectKey : String
  subtask : Bool
  creatorSelf : String
  creatorName : String
  creatorDisplayName : String
  fieldVal : String → Option FieldVal
  parentKey : Option String

/-- The ids that `get_jira_custom_fields` resolves for the two field names
the link resolver uses ("Repo" and "PR Number"). -/
structure CustomFieldIds where
  repoId : String
  prNumId : String

/-- Environment of the link resolver. `parentFieldVal k fid` is the value of
custom field `fid` on issue `k`, as returned by the fetch-issue-by-key
service (`get_jira_issue`) used for the single-level parent fallback. -/
structure LinkEnv where
  parentFieldVal : String → String → Option FieldVal

/-! Outbound calls, remote responses, and the error taxonomy. -/

/-- One outbound call a handler performs against JIRA or GitHub. -/
inductive Call
  | getUserGroups (url : String)
  | getTransitions (url : String)
  | postTransition (url : String) (transitionId : String)
  | getGithubIssue (url : String)
  | getRepoLabels (repo : String)
  | postComment (url : String) (body : String)
  | patchClose (url : String)
  | patchLabels (url : String) (labels : List String)
deriving DecidableEq

/-- Whether a call mutates remote state. -/
def Call.isWrite : Call → Bool
  | .postTransition _ _ => true
  | .postComment _ _ => true
  | .patchClose _ => true
  | .patchLabels _ _ => true
  | _ => false

/-- The response an outbound call receives: HTTP success flag, response text,
and the decoded payload used when the call succeeded. -/
structure RemoteResp (α : Type) where
  ok : Bool
  text : String
  payload : α

/-- Errors the handlers raise. `RemoteAPIError` models
`requests.exceptions.RequestException(text)`; `ConfigurationError` models the
`ValueError` naming the offered transitions; `LinkResolutionError` models the
exception carrying the issue key when no pull request can be resolved;
`IndexError` and `KeyError` model the Python runtime errors on an empty
status-item list and on a missing lowercase-catalog entry. -/
inductive Err
  | RemoteAPIError (text : String)
  | ConfigurationError (offered : List String)
  | LinkResolutionError (issueKey : String)
  | IndexError
  | KeyError
deriving DecidableEq

/-! Triage policy: `should_transition`. -/

/-- Group Exemption Table from `should_transition`: group name to the project
keys whose issues members may create without triage ("ALL" = every project). -/
def exempt_groups : List (String × List String) :=
  [("edx-employees", ["ALL"]),
   ("clarice", ["MOB"]),
   ("bnotions", ["MOB"])]

/-- Lookup in an association list, first match wins (Python `dict` built from
distinct literal keys). -/
def lookupTable (t : List (String × List String)) (k : String) : Option (List String) :=
  (t.find? (fun p => p.1 = k)).map (·.2)

/-- One iteration of the exemption loop in `should_transition`: does group
`g` exempt issues of project `projectKey` from triage? -/
def group_exempt_for (projectKey : String) (g : String) : Bool :=
  match lookupTable exempt_groups g with
  | none => false
  | some exempt_projects =>
      exempt_projects.contains "ALL" || exempt_projects.contains projectKey

/-- Environment of `should_transition`: the response to fetching the
creator's group memberships (payload: the group names). -/
structure TriageEnv where
  groupsResp : RemoteResp (List String)

/-- `should_transition(issue)`: decide whether the issue should be moved
automatically out of "Needs Triage". Returns the decision and the trace of
outbound calls. -/
def should_transition (env : TriageEnv) (issue : JIssue) :
    Except Err Bool × List Call :=
  if issue.statusName ≠ "Needs Triage" then
    (.ok false, [])
  else if issue.projectKey = "OSPR" && !issue.subtask then
    (.ok false, [])
  else
    let calls := [Call.getUserGroups issue.creatorSelf]
    if !env.groupsResp.ok then
      (.error (.RemoteAPIError env.groupsResp.text), calls)
    else
      (.ok (env.groupsResp.payload.any (group_exempt_for issue.projectKey)), calls)

/-! Issue-created handler: `issue_opened`. -/

/-- One entry of the transitions list JIRA offers for an issue. -/
structure Transition where
  name : String
  id : String
deriving DecidableEq

/-- Lookup in the name-to-id `dict` built from a transitions list: a later
entry with the same name overrides an earlier one. -/
def dictLookup (ts : List Transition) (name : String) : Option String :=
  (ts.reverse.find? (fun t => t.name = name)).map (·.id)

/-- Environment of `issue_opened`: responses to the group fetch, the
transitions fetch, and the transition execution. -/
structure IssueOpenedEnv where
  groupsResp : RemoteResp (List String)
  transitionsResp : RemoteResp (List Transition)
  transitionPostResp : RemoteResp Unit

/-- `issue_opened(issue)`: act on the triage decision, executing at most one
state transition, and report a human-readable outcome. -/
def issue_opened (env : IssueOpenedEnv) (issue : JIssue) :
    Except Err String × List Call :=
  match should_transition { groupsResp := env.groupsResp } issue with
  | (.error e, calls0) => (.error e, calls0)
  | (.ok false, calls0) => (.ok "ignored", calls0)
  | (.ok true, calls0) =>
    let transitions_url := issue.self ++ "/transitions"
    let calls1 := calls0 ++ [Call.getTransitions transitions_url]
    if !env.transitionsResp.ok then
      (.error (.RemoteAPIError env.transitionsResp.text), calls1)
    else
      let ts := env.transitionsResp.payload
      let names := ts.map (·.name)
      if names.contains "Open" then
        let calls2 := calls1 ++ [Call.postTransition transitions_url ((dictLookup ts "Open").getD "")]
        if !env.transitionPostResp.ok then
          (.error (.RemoteAPIError env.transitionPostResp.text), calls2)
        else (.ok "Transitioned to Open", calls2)
      else if names.contains "Design Backlog" then
        let calls2 := calls1 ++ [Call.postTransition transitions_url ((dictLookup ts "Design Backlog").getD "")]
        if !env.transitionPostResp.ok then
          (.error (.RemoteAPIError env.transitionPostResp.text), calls2)
        else (.ok "Transitioned to Open", calls2)
      else
        (.error (.ConfigurationError names), calls1)

/-! Link resolver: `github_pr_repo`, `github_pr_num`, `github_pr_url`. -/

/-- `github_pr_repo(issue)`: the "Repo" custom field of the issue, falling
back to the parent issue's field when the issue's own value is falsy and a
parent reference exists (single-level fallback). -/
def github_pr_repo (cf : CustomFieldIds) (lenv : LinkEnv) (issue : JIssue) :
    Option FieldVal :=
  let pr_repo := issue.fieldVal cf.repoId
  match issue.parentKey with
  | some pkey =>
      if !truthyOpt pr_repo then lenv.parentFieldVal pkey cf.repoId else pr_repo
  | none => pr_repo

/-- `github_pr_num(issue)`: the "PR Number" custom field with the same parent
fallback, coerced with `int(...)`; a value that cannot be coerced yields
`none` (the bare `except` in the source). -/
def github_pr_num (cf : CustomFieldIds) (lenv : LinkEnv) (issue : JIssue) :
    Option Int :=
  let pr_num := issue.fieldVal cf.prNumId
  let pr_num :=
    match issue.parentKey with
    | some pkey =>
        if !truthyOpt pr_num then lenv.parentFieldVal pkey cf.prNumId else pr_num
    | none => pr_num
  pyIntOfField pr_num

/-- `github_pr_url(issue)`: the pull-request API path, or a
`LinkResolutionError` carrying the issue key when either the repository or
the number is still falsy after fallback. -/
def github_pr_url (cf : CustomFieldIds) (lenv : LinkEnv) (issue : JIssue) :
    Except Err String :=
  let pr_repo := github_pr_repo cf lenv issue
  let pr_num := github_pr_num cf lenv issue
  if !truthyOpt pr_repo || !intTruthy pr_num then
    .error (.LinkResolutionError issue.key)
  else
    .ok ("/repos/" ++ optStr pr_repo ++ "/pulls/" ++ optIntStr pr_num)

/-! Rejection branch: `jira_issue_rejected`. -/

/-- The GitHub issue paired with a pull request, restricted to the parts the
handlers read: open/closed state, author login, and label names. -/
structure GhIssue where
  state : String
  userLogin : String
  labels : List String

/-- Environment of `jira_issue_rejected`: responses to the GitHub issue
fetch, the comment post, and the close patch. -/
structure RejectEnv where
  ghIssueResp : RemoteResp GhIssue
  commentResp : RemoteResp Unit
  closeResp : RemoteResp Unit

/-- Body of the explanatory comment posted before closing, addressed to the
pull request's author. -/
def rejectComment (username : String) : String :=
  "Hello @" ++ username ++ ": We are unable to continue with " ++
  "review of your submission at this time. Please see the " ++
  "associated JIRA ticket for more explanation."

/-- `jira_issue_rejected(issue)`: if the linked pull request is still open,
post the explanatory comment and close it, raising a single error carrying
the text of every failed call; if it is already closed, do nothing. -/
def jira_issue_rejected (cf : CustomFieldIds) (lenv : LinkEnv) (env : RejectEnv)
    (issue : JIssue) : Except Err String × List Call :=
  let pr_num := github_pr_num cf lenv issue
  match github_pr_url cf lenv issue with
  | .error e => (.error e, [])
  | .ok pr_url =>
    let issue_url := pyReplace pr_url "pulls" "issues"
    let calls0 := [Call.getGithubIssue issue_url]
    if !env.ghIssueResp.ok then
      (.error (.RemoteAPIError env.ghIssueResp.text), calls0)
    else
      let gh_issue := env.ghIssueResp.payload
      if gh_issue.state = "closed" then
        (.ok (issue.key ++ " was rejected, but PR #" ++ optIntStr pr_num ++
              " was already closed"), calls0)
      else
        let calls1 := calls0 ++
          [Call.postComment (issue_url ++ "/comments") (rejectComment gh_issue.userLogin)]
        let calls2 := calls1 ++ [Call.patchClose pr_url]
        if !env.closeResp.ok || !env.commentResp.ok then
          let bug_text :=
            (if !env.closeResp.ok then "Failed to close; " ++ env.closeResp.text else "")
            ++ (if !env.commentResp.ok then "Failed to comment on the PR; " ++ env.commentResp.text else "")
          (.error (.RemoteAPIError bug_text), calls2)
        else
          (.ok ("Closed PR #" ++ optIntStr pr_num), calls2)

/-! Label branch: `jira_issue_status_changed`. -/

/-- One label of a repository's catalog (name and URL). -/
structure GhLabel where
  name : String
  url : String

/-- Keep the first occurrence of each string, dropping later duplicates, as
iterating the keys of a Python `dict` built from the list does. -/
def dedupKeepFirstAux : List String → List String → List String
  | _, [] => []
  | seen, x :: xs =>
      if x ∈ seen then dedupKeepFirstAux seen xs
      else x :: dedupKeepFirstAux (x :: seen) xs

/-- Lookup in `repo_labels_lower`, the lowercase-name to canonical-name
`dict`: among the catalog's distinct names in first-occurrence order, the
last one whose lowercase form equals `key` wins. -/
def lowerIndexGet (catalogNames : List String) (key : String) : Option String :=
  (dedupKeepFirstAux [] catalogNames).reverse.find? (fun n => lowerStr n = key)

/-- `repo_labels_lower.get(old_status.lower(), old_status)`: the label to
remove, falling back to the raw old-status text without a catalog match. -/
def oldStatusLabel (catalogNames : List String) (old_status : String) : String :=
  (lowerIndexGet catalogNames (lowerStr old_status)).getD old_status

/-- The label-list update of `jira_issue_status_changed` (remove the old
status label if present, then append the new status label if absent); `none`
models the `KeyError` when the new status has no catalog entry. -/
def computeNewLabels (catalogNames : List String) (pr_labels : List String)
    (old_status new_status : String) : Option (List String) :=
  let old_label := oldStatusLabel catalogNames old_status
  let labels1 :=
    if pr_labels.contains old_label then pr_labels.erase old_label else pr_labels
  match lowerIndexGet catalogNames (lowerStr new_status) with
  | none => none
  | some new_label =>
      some (if !labels1.contains new_label then labels1 ++ [new_label] else labels1)

/-- One field-change item of an issue-updated changelog. -/
structure ChangeItem where
  field : String
  fromString : String
  toString : String
deriving DecidableEq

/-- Render a label list as the outcome message interpolates it. -/
def listToStr (ls : List String) : String :=
  "[" ++ String.intercalate ", " ls ++ "]"

/-- Environment of `jira_issue_status_changed`: responses to the GitHub issue
fetch, the label-catalog fetch, and the label update patch. -/
structure StatusEnv where
  ghIssueResp : RemoteResp GhIssue
  repoLabelsResp : RemoteResp (List GhLabel)
  updateLabelResp : RemoteResp Unit

/-- `jira_issue_status_changed(issue, changelog)`: replace the pull request's
status label according to the first status item of the changelog, preserving
all other labels, in a single label-set write. -/
def jira_issue_status_changed (cf : CustomFieldIds) (lenv : LinkEnv)
    (env : StatusEnv) (issue : JIssue) (changelog : List ChangeItem) :
    Except Err String × List Call :=
  let pr_num := github_pr_num cf lenv issue
  let pr_repo := github_pr_repo cf lenv issue
  match github_pr_url cf lenv issue with
  | .error e => (.error e, [])
  | .ok pr_url =>
    let issue_url := pyReplace pr_url "pulls" "issues"
    match (changelog.filter (fun item => item.field = "status")).head? with
    | none => (.error .IndexError, [])
    | some status_changelog =>
      let old_status := status_changelog.fromString
      let new_status := status_changelog.toString
      let calls0 := [Call.getGithubIssue issue_url]
      if !env.ghIssueResp.ok then
        (.error (.RemoteAPIError env.ghIssueResp.text), calls0)
      else
        let gh_issue := env.ghIssueResp.payload
        let calls1 := calls0 ++ [Call.getRepoLabels (optStr pr_repo)]
        if !env.repoLabelsResp.ok then
          (.error (.RemoteAPIError env.repoLabelsResp.text), calls1)
        else
          let catalogNames := env.repoLabelsResp.payload.map (·.name)
          match computeNewLabels catalogNames gh_issue.labels old_status new_status with
          | none => (.error .KeyError, calls1)
          | some pr_labels2 =>
            let calls2 := calls1 ++ [Call.patchLabels issue_url pr_labels2]
            if !env.updateLabelResp.ok then
              (.error (.RemoteAPIError env.updateLabelResp.text), calls2)
            else
              (.ok ("Changed labels of PR #" ++ optIntStr pr_num ++ " to " ++
                    listToStr pr_labels2), calls2)

/-! Issue-updated dispatcher: `jira_issue_updated`. -/

/-- A comment object of an issue-updated event. -/
structure Comment where
  body : String

/-- An issue-updated event after JSON decoding: the issue, an optional
changelog (its "items" list), and an optional comment object. -/
structure UpdatedEvent where
  issue : JIssue
  changelog : Option (List ChangeItem)
  comment : Option Comment

/-- Environment of `jira_issue_updated`: the dispatcher's own label-catalog
fetch plus the environments of the two branches it may run. -/
structure UpdatedEnv where
  repoLabelsResp : RemoteResp (List GhLabel)
  reject : RejectEnv
  status : StatusEnv

/-- `jira_issue_updated()` after request decoding: route a comment-bearing
event to the comment collaborator, ignore non-OSPR issues, subtasks and
events without a status change, and otherwise run the rejection branch and
the label branch as the first status item's new value dictates. The comment
collaborator (`jira_issue_comment_added`) is a parameter, as the dispatcher
only forwards to it. -/
def jira_issue_updated (cf : CustomFieldIds) (lenv : LinkEnv) (env : UpdatedEnv)
    (commentHandler : JIssue → Comment → Except Err String × List Call)
    (event : UpdatedEvent) : Except Err String × List Call :=
  match event.comment with
  | some c => commentHandler event.issue c
  | none =>
    if event.issue.projectKey ≠ "OSPR" then (.ok "I don\x27t care", [])
    else if event.issue.subtask then (.ok "ignoring subtasks", [])
    else
      match event.changelog with
      | none => (.ok "I don\x27t care", [])
      | some changelog =>
        match (changelog.filter (fun item => item.field = "status")).head? with
        | none => (.ok "I don\x27t care", [])
        | some status_item =>
          let pr_repo := github_pr_repo cf lenv event.issue
          if !truthyOpt pr_repo then
            (.error (.LinkResolutionError event.issue.key), [])
          else
            let calls0 := [Call.getRepoLabels (optStr pr_repo)]
            if !env.repoLabelsResp.ok then
              (.error (.RemoteAPIError env.repoLabelsResp.text), calls0)
            else
              let catalogNames := env.repoLabelsResp.payload.map (·.name)
              let new_status := status_item.toString
              let step1 : Except Err (List String) × List Call :=
                if new_status = "Rejected" then
                  match jira_issue_rejected cf lenv env.reject event.issue with
                  | (.error e, cs) => (.error e, calls0 ++ cs)
                  | (.ok msg, cs) => (.ok [msg], calls0 ++ cs)
                else (.ok [], calls0)
              match step1 with
              | (.error e, cs) => (.error e, cs)
              | (.ok changes1, cs1) =>
                if (lowerIndexGet catalogNames (lowerStr new_status)).isSome then
                  match jira_issue_status_changed cf lenv env.status event.issue changelog with
                  | (.error e, cs) => (.error e, cs1 ++ cs)
                  | (.ok msg, cs) =>
                      (.ok (String.intercalate "\n" (changes1 ++ [msg])), cs1 ++ cs)
                else
                  if changes1.isEmpty then (.ok "no change necessary", cs1)
                  else (.ok (String.intercalate "\n" changes1), cs1)

/-! Helper lemmas. -/

/-- Members of the deduplicated list are members of the original list. -/
theorem mem_dedupKeepFirstAux {x : String} :
    ∀ (seen l : List String), x ∈ dedupKeepFirstAux seen l → x ∈ l := by
  intro seen l
  induction l generalizing seen with
  | nil => simp [dedupKeepFirstAux]
  | cons y ys ih =>
    intro hx
    unfold dedupKeepFirstAux at hx
    by_cases hy : y ∈ seen
    · simp only [hy, if_pos] at hx
      exact List.mem_cons_of_mem _ (ih _ hx)
    · simp only [hy, if_neg, not_false_iff] at hx
      rcases List.mem_cons.mp hx with h | h
      · exact h ▸ List.mem_cons_self _ _
      · exact List.mem_cons_of_mem _ (ih _ h)

/-- A successful lowercase-catalog lookup returns a catalog entry whose
lowercase form is the key. -/
theorem lowerIndexGet_spec {catalog : List String} {k c : String}
    (h : lowerIndexGet catalog k = some c) :
    lowerStr c = k ∧ c ∈ catalog := by
  unfold lowerIndexGet at h
  have h1 := List.find?_some h
  have h2 := List.mem_of_find?_eq_some h
  rw [List.mem_reverse] at h2
  exact ⟨by simpa using h1, mem_dedupKeepFirstAux _ _ h2⟩

/-- The lowercase form of the old-status label is the lowercase form of the
old status. -/
theorem lowerStr_oldStatusLabel (catalog : List String) (old_status : String) :
    lowerStr (oldStatusLabel catalog old_status) = lowerStr old_status := by
  unfold oldStatusLabel
  cases hc : lowerIndexGet catalog (lowerStr old_status) with
  | none => simp
  | some c => simpa using (lowerIndexGet_spec hc).1

/-- Membership characterization of one iteration of the exemption loop. -/
theorem group_exempt_iff (pk g : String) :
    group_exempt_for pk g = true ↔
      ∃ projs, (g, projs) ∈ exempt_groups ∧ ("ALL" ∈ projs ∨ pk ∈ projs) := by
  unfold group_exempt_for lookupTable exempt_groups
  by_cases h1 : "edx-employees" = g
  · subst h1
    simp [List.find?]
  · by_cases h2 : "clarice" = g
    · subst h2
      simp [List.find?, h1]
    · by_cases h3 : "bnotions" = g
      · subst h3
        simp [List.find?, h1, h2]
      · simp [List.find?, h1, h2, h3, Ne.symm h1, Ne.symm h2, Ne.symm h3]

/-- Claim C4: a "Needs Triage" issue of the OSPR project that is not a
subtask is never transitioned automatically (`should_transition` returns
false, i.e. the spec's `requires_triage` is true, and no group fetch is even
performed), regardless of the creator's group memberships. -/
theorem c4_ospr_toplevel_requires_triage (env : TriageEnv) (issue : JIssue)
    (hstatus : issue.statusName = "Needs Triage")
    (hproj : issue.projectKey = "OSPR")
    (hsub : issue.subtask = false) :
    should_transition env issue = (.ok false, []) := by
  simp [should_transition, hstatus, hproj, hsub]

/-- Witness for C4 at a concrete OSPR top-level issue whose creator belongs
to an exempt group. -/
theorem c4_ospr_toplevel_requires_triage_witness :
    should_transition ⟨⟨true, "", ["edx-employees"]⟩⟩
      ⟨"OSPR-42", "https://j/i/42", "Needs Triage", "OSPR", false,
       "https://j/u/a", "a", "A", fun _ => none, none⟩
      = (.ok false, []) :=
  c4_ospr_toplevel_requires_triage _ _ rfl rfl rfl

/-- Claim C5: for a "Needs Triage" issue that is a subtask of OSPR or
belongs to another project, when the group fetch succeeds the automatic
transition fires exactly when some fetched group appears in the Group
Exemption Table with the "ALL" sentinel or with the issue's project key
(so the spec's `requires_triage` is false exactly then). -/
theorem c5_exemption_intersection (env : TriageEnv) (issue : JIssue)
    (hstatus : issue.statusName = "Needs Triage")
    (hnot : issue.projectKey = "OSPR" → issue.subtask = true)
    (hok : env.groupsResp.ok = true) :
    ∃ b, should_transition env issue
        = (.ok b, [Call.getUserGroups issue.creatorSelf]) ∧
      (b = true ↔ ∃ g ∈ env.groupsResp.payload, ∃ projs,
        (g, projs) ∈ exempt_groups ∧
          ("ALL" ∈ projs ∨ issue.projectKey ∈ projs)) := by
  have h2 : (decide (issue.projectKey = "OSPR") && !issue.subtask) = false := by
    by_cases hp : issue.projectKey = "OSPR"
    · simp [hp, hnot hp]
    · simp [hp]
  refine ⟨env.groupsResp.payload.any (group_exempt_for issue.projectKey), ?_, ?_⟩
  · simp [should_transition, hstatus, h2, hok]
  · simp only [List.any_eq_true, group_exempt_iff]

/-- Witness for C5 at a concrete MOB subtask created by a "clarice" member. -/
theorem c5_exemption_intersection_witness :
    ∃ b, should_transition ⟨⟨true, "", ["clarice"]⟩⟩
        ⟨"MOB-7", "https://j/i/7", "Needs Triage", "MOB", true,
         "https://j/u/c", "c", "C", fun _ => none, none⟩
        = (.ok b, [Call.getUserGroups "https://j/u/c"]) ∧
      (b = true ↔ ∃ g ∈ ["clarice"], ∃ projs,
        (g, projs) ∈ exempt_groups ∧ ("ALL" ∈ projs ∨ "MOB" ∈ projs)) :=
  c5_exemption_intersection _ _ rfl (fun h => by simp at h) rfl

/-- Claim C6: re-invoking the issue-created handler on an issue whose status
has already moved out of "Needs Triage" performs no outbound call at all (in
particular no transition fetch or execution) and returns the fixed outcome
"ignored" whatever the remote environment is. -/
theorem c6_reinvoke_no_write (env : IssueOpenedEnv) (issue : JIssue)
    (hstatus : issue.statusName ≠ "Needs Triage") :
    issue_opened env issue = (.ok "ignored", []) := by
  unfold issue_opened
  simp [should_transition, hstatus]

/-- Witness for C6 at a concrete issue already in "Open". -/
theorem c6_reinvoke_no_write_witness :
    issue_opened ⟨⟨true, "", ["edx-employees"]⟩, ⟨true, "", [⟨"Open", "11"⟩]⟩, ⟨true, "", ()⟩⟩
      ⟨"MOB-7", "https://j/i/7", "Open", "MOB", true,
       "https://j/u/c", "c", "C", fun _ => none, none⟩
      = (.ok "ignored", []) :=
  c6_reinvoke_no_write _ _ (by simp)

/-- Claim C8: the link resolver falls back to the parent issue's "Repo" and
"PR Number" values when the issue's own fields are falsy (single level); a
pull-number value that `int(...)` cannot coerce resolves to `none` instead of
raising; and whenever the repository or number is still falsy after fallback,
`github_pr_url` fails with a `LinkResolutionError` carrying the issue key. -/
theorem c8_link_resolution :
    (∀ (cf : CustomFieldIds) (lenv : LinkEnv) (issue : JIssue) (pkey : String),
      issue.parentKey = some pkey →
      truthyOpt (issue.fieldVal cf.repoId) = false →
      truthyOpt (issue.fieldVal cf.prNumId) = false →
      github_pr_repo cf lenv issue = lenv.parentFieldVal pkey cf.repoId ∧
      github_pr_num cf lenv issue
        = pyIntOfField (lenv.parentFieldVal pkey cf.prNumId)) ∧
    (∀ (cf : CustomFieldIds) (lenv : LinkEnv) (issue : JIssue) (s : String),
      issue.fieldVal cf.prNumId = some (.str s) → s ≠ "" → pyInt s = none →
      github_pr_num cf lenv issue = none) ∧
    (∀ (cf : CustomFieldIds) (lenv : LinkEnv) (issue : JIssue),
      truthyOpt (github_pr_repo cf lenv issue) = false ∨
        intTruthy (github_pr_num cf lenv issue) = false →
      github_pr_url cf lenv issue = .error (.LinkResolutionError issue.key)) := by
  refine ⟨?_, ?_, ?_⟩
  · intro cf lenv issue pkey hp hr hn
    constructor
    · simp [github_pr_repo, hp, hr]
    · simp [github_pr_num, hp, hn]
  · intro cf lenv issue s hs hne hbad
    cases hp : issue.parentKey with
    | none => simp [github_pr_num, hp, hs, pyIntOfField, hbad]
    | some pkey =>
        simp [github_pr_num, hp, hs, truthyOpt, FieldVal.truthy, hne,
              pyIntOfField, hbad]
  · intro cf lenv issue h
    rcases h with h | h <;> simp [github_pr_url, h]

/-- Concrete field-id directory used by the link-resolution witness. -/
def wCf : CustomFieldIds := ⟨"cfR", "cfN"⟩

/-- Concrete parent-issue store used by the link-resolution witness. -/
def wLenv : LinkEnv :=
  ⟨fun k fid => if k = "OSPR-1" ∧ fid = "cfR" then some (.str "edx/edx-platform")
                else if k = "OSPR-1" ∧ fid = "cfN" then some (.num 42) else none⟩

/-- Concrete subtask with no link fields of its own and a linked parent. -/
def wSubtask : JIssue :=
  ⟨"OSPR-2", "https://j/i/2", "Needs Triage", "OSPR", true,
   "https://j/u/a", "a", "A", fun _ => none, some "OSPR-1"⟩

/-- Concrete issue whose pull-number field holds non-numeric text. -/
def wBadNum : JIssue :=
  ⟨"OSPR-3", "https://j/i/3", "Needs Triage", "OSPR", false,
   "https://j/u/a", "a", "A",
   fun fid => if fid = "cfN" then some (.str "zomg") else none, none⟩

/-- Witness for C8: a subtask with no own link fields inherits its parent's
values; a non-numeric pull number resolves to `none`; an issue with no link
data at all fails with a `LinkResolutionError` carrying its key. -/
theorem c8_link_resolution_witness :
    github_pr_repo wCf wLenv wSubtask = some (.str "edx/edx-platform") ∧
    github_pr_num wCf wLenv wSubtask = some 42 ∧
    github_pr_num wCf wLenv wBadNum = none ∧
    github_pr_url wCf wLenv wBadNum = .error (.LinkResolutionError "OSPR-3") := by
  refine ⟨?_, ?_, ?_, ?_⟩
  · exact ((c8_link_resolution.1 wCf wLenv wSubtask "OSPR-1" rfl rfl rfl).1).trans rfl
  · exact ((c8_link_resolution.1 wCf wLenv wSubtask "OSPR-1" rfl rfl rfl).2).trans rfl
  · exact c8_link_resolution.2.1 wCf wLenv wBadNum "zomg" rfl (by simp) rfl
  · exact c8_link_resolution.2.2 wCf wLenv wBadNum (Or.inl rfl)

/-- Claim C3: a rejection observed for a pull request already closed on
GitHub performs no write at all (only the GitHub issue read) and returns the
already-closed outcome message. -/
theorem c3_rejected_already_closed (cf : CustomFieldIds) (lenv : LinkEnv)
    (env : RejectEnv) (issue : JIssue) (pr_url : String)
    (hurl : github_pr_url cf lenv issue = .ok pr_url)
    (hok : env.ghIssueResp.ok = true)
    (hclosed : env.ghIssueResp.payload.state = "closed") :
    jira_issue_rejected cf lenv env issue
      = (.ok (issue.key ++ " was rejected, but PR #"
              ++ optIntStr (github_pr_num cf lenv issue) ++ " was already closed"),
         [Call.getGithubIssue (pyReplace pr_url "pulls" "issues")]) ∧
    (jira_issue_rejected cf lenv env issue).2.filter Call.isWrite = [] := by
  have h : jira_issue_rejected cf lenv env issue
      = (.ok (issue.key ++ " was rejected, but PR #"
              ++ optIntStr (github_pr_num cf lenv issue) ++ " was already closed"),
         [Call.getGithubIssue (pyReplace pr_url "pulls" "issues")]) := by
    unfold jira_issue_rejected
    rw [hurl]
    simp [hok, hclosed]
  exact ⟨h, by rw [h]; simp [Call.isWrite]⟩

/-- Concrete empty parent store used by the rejection witnesses. -/
def wLenv0 : LinkEnv := ⟨fun _ _ => none⟩

/-- Concrete rejected issue linked to pull request 123 of edx/edx-platform. -/
def wRejIssue : JIssue :=
  ⟨"OSPR-9", "https://j/i/9", "Rejected", "OSPR", false,
   "https://j/u/a", "a", "A",
   fun fid => if fid = "cfR" then some (.str "edx/edx-platform")
              else if fid = "cfN" then some (.num 123) else none, none⟩

/-- Concrete rejection environment with the pull request already closed. -/
def wRejClosedEnv : RejectEnv :=
  ⟨⟨true, "", ⟨"closed", "alice", ["bug"]⟩⟩, ⟨true, "", ()⟩, ⟨true, "", ()⟩⟩

/-- Witness for C3 at a concrete already-closed pull request. -/
theorem c3_rejected_already_closed_witness :
    jira_issue_rejected wCf wLenv0 wRejClosedEnv wRejIssue
      = (.ok "OSPR-9 was rejected, but PR #123 was already closed",
         [Call.getGithubIssue "/repos/edx/edx-platform/issues/123"]) :=
  ((c3_rejected_already_closed wCf wLenv0 wRejClosedEnv wRejIssue
      "/repos/edx/edx-platform/pulls/123" rfl rfl rfl).1).trans rfl

/-- Claim C2: when the linked pull request is still open, the rejection
branch attempts both the explanatory comment and the close; if either call
fails, it raises one `RemoteAPIError` whose text concatenates the failure
text of every failed call, and the trace still shows both attempts (a
partial application is surfaced, not rolled back). -/
theorem c2_rejected_partial_failure (cf : CustomFieldIds) (lenv : LinkEnv)
    (env : RejectEnv) (issue : JIssue) (pr_url : String)
    (hurl : github_pr_url cf lenv issue = .ok pr_url)
    (hok : env.ghIssueResp.ok = true)
    (hopen : env.ghIssueResp.payload.state ≠ "closed")
    (hfail : env.closeResp.ok = false ∨ env.commentResp.ok = false) :
    jira_issue_rejected cf lenv env issue
      = (.error (.RemoteAPIError
          ((if !env.closeResp.ok then "Failed to close; " ++ env.closeResp.text else "")
           ++ (if !env.commentResp.ok then
                 "Failed to comment on the PR; " ++ env.commentResp.text else ""))),
         [Call.getGithubIssue (pyReplace pr_url "pulls" "issues"),
          Call.postComment (pyReplace pr_url "pulls" "issues" ++ "/comments")
            (rejectComment env.ghIssueResp.payload.userLogin),
          Call.patchClose pr_url]) := by
  unfold jira_issue_rejected
  rw [hurl]
  have hcond : (!env.closeResp.ok || !env.commentResp.ok) = true := by
    rcases hfail with h | h <;> simp [h]
  simp [hok, hopen, hcond]

/-- Witness for C2 at a concrete open pull request where the comment
succeeds and the close fails: the comment write is in the trace and the
raised error carries the close failure text. -/
theorem c2_rejected_partial_failure_witness :
    jira_issue_rejected wCf wLenv0
        ⟨⟨true, "", ⟨"open", "alice", ["bug"]⟩⟩, ⟨true, "", ()⟩, ⟨false, "503 oops", ()⟩⟩
        wRejIssue
      = (.error (.RemoteAPIError "Failed to close; 503 oops"),
         [Call.getGithubIssue "/repos/edx/edx-platform/issues/123",
          Call.postComment "/repos/edx/edx-platform/issues/123/comments"
            (rejectComment "alice"),
          Call.patchClose "/repos/edx/edx-platform/pulls/123"]) :=
  (c2_rejected_partial_failure wCf wLenv0
      ⟨⟨true, "", ⟨"open", "alice", ["bug"]⟩⟩, ⟨true, "", ()⟩, ⟨false, "503 oops", ()⟩⟩
      wRejIssue "/repos/edx/edx-platform/pulls/123"
      rfl rfl (by simp) (Or.inl rfl)).trans rfl

/-- The membership-guarded erase of the source equals a plain erase. -/
theorem containsEraseIf {l : List String} {a : String} :
    (if l.contains a then l.erase a else l) = l.erase a := by
  by_cases h : a ∈ l
  · simp [List.contains, List.elem_iff, h]
  · simp [List.contains, List.elem_iff, h, List.erase_of_not_mem h]

/-- Membership in the updated label list: exactly the labels surviving the
erase of the old-status label, plus the new-status label. -/
theorem computeNewLabels_mem_iff
    (catalog labels : List String) (old_status new_status new_label : String)
    (L2 : List String)
    (hnew : lowerIndexGet catalog (lowerStr new_status) = some new_label)
    (hL : computeNewLabels catalog labels old_status new_status = some L2) :
    ∀ x, x ∈ L2 ↔
      (x ∈ labels.erase (oldStatusLabel catalog old_status) ∨ x = new_label) := by
  simp only [computeNewLabels, hnew, containsEraseIf, Option.some.injEq] at hL
  intro x
  by_cases hc : new_label ∈ labels.erase (oldStatusLabel catalog old_status)
  · have hcc : (labels.erase (oldStatusLabel catalog old_status)).contains new_label = true := by
      simp [List.contains, List.elem_iff, hc]
    rw [hcc] at hL
    simp only [Bool.not_true, Bool.false_eq_true, if_false] at hL
    subst hL
    constructor
    · exact Or.inl
    · rintro (hx | rfl)
      · exact hx
      · exact hc
  · have hcc : (labels.erase (oldStatusLabel catalog old_status)).contains new_label = false := by
      simp [List.contains, List.elem_iff, hc]
    rw [hcc] at hL
    simp only [Bool.not_false, if_true] at hL
    subst hL
    simp [List.mem_append]

/-- Claim C1 core: the label update is a set-replace. Given that the new
status is label-worthy (its lowercase form has a catalog entry), the computed
list preserves every label whose lowercase form differs from both statuses,
contains the new label in exact catalog casing, adds nothing else, and no
longer contains the removed old-status label. -/
theorem computeNewLabels_spec
    (catalog labels : List String) (old_status new_status new_label : String)
    (L2 : List String)
    (hnew : lowerIndexGet catalog (lowerStr new_status) = some new_label)
    (hL : computeNewLabels catalog labels old_status new_status = some L2) :
    (∀ l ∈ labels, lowerStr l ≠ lowerStr old_status →
        lowerStr l ≠ lowerStr new_status → l ∈ L2) ∧
    new_label ∈ L2 ∧ new_label ∈ catalog ∧ lowerStr new_label = lowerStr new_status ∧
    (∀ l ∈ L2, l ∈ labels ∨ l = new_label) ∧
    (labels.Nodup → oldStatusLabel catalog old_status ≠ new_label →
        oldStatusLabel catalog old_status ∉ L2) := by
  have hiff := computeNewLabels_mem_iff catalog labels old_status new_status
    new_label L2 hnew hL
  have hspec := lowerIndexGet_spec hnew
  have hosl := lowerStr_oldStatusLabel catalog old_status
  refine ⟨?_, ?_, hspec.2, hspec.1, ?_, ?_⟩
  · intro l hl hold _hnew2
    have hne : l ≠ oldStatusLabel catalog old_status := by
      intro h
      exact hold (h ▸ hosl)
    exact (hiff l).mpr (Or.inl ((List.mem_erase_of_ne hne).mpr hl))
  · exact (hiff new_label).mpr (Or.inr rfl)
  · intro l hl
    rcases (hiff l).mp hl with h | h
    · exact Or.inl (List.mem_of_mem_erase h)
    · exact Or.inr h
  · intro hnd hne habs
    rcases (hiff _).mp habs with h | h
    · exact absurd ((hnd.mem_erase_iff.mp h).1) (by simp)
    · exact hne h

/-- Claim C1: on a status change handled by the label branch, the label
update patched to GitHub is the set-replace of `computeNewLabels`: every
label whose lowercase form differs from both the old and the new status is
preserved, the new status label is present in exact catalog casing, nothing
unrelated is added, and with duplicate-free labels the old-status label
(catalog-matched case-insensitively, falling back to the raw old-status
text) is gone unless it coincides with the new label. -/
theorem c1_label_set_replace (cf : CustomFieldIds) (lenv : LinkEnv)
    (env : StatusEnv) (issue : JIssue) (changelog : List ChangeItem)
    (st_item : ChangeItem) (pr_url new_label : String) (L2 : List String)
    (hurl : github_pr_url cf lenv issue = .ok pr_url)
    (hitem : (changelog.filter (fun item => item.field = "status")).head? = some st_item)
    (hgh : env.ghIssueResp.ok = true)
    (hlab : env.repoLabelsResp.ok = true)
    (hupd : env.updateLabelResp.ok = true)
    (hnew : lowerIndexGet (env.repoLabelsResp.payload.map (·.name))
              (lowerStr st_item.toString) = some new_label)
    (hL : computeNewLabels (env.repoLabelsResp.payload.map (·.name))
            env.ghIssueResp.payload.labels st_item.fromString st_item.toString
          = some L2) :
    (jira_issue_status_changed cf lenv env issue changelog).2.filter Call.isWrite
        = [Call.patchLabels (pyReplace pr_url "pulls" "issues") L2] ∧
    (∀ l ∈ env.ghIssueResp.payload.labels,
        lowerStr l ≠ lowerStr st_item.fromString →
        lowerStr l ≠ lowerStr st_item.toString → l ∈ L2) ∧
    (new_label ∈ L2 ∧ new_label ∈ env.repoLabelsResp.payload.map (·.name) ∧
        lowerStr new_label = lowerStr st_item.toString) ∧
    (∀ l ∈ L2, l ∈ env.ghIssueResp.payload.labels ∨ l = new_label) ∧
    (env.ghIssueResp.payload.labels.Nodup →
      oldStatusLabel (env.repoLabelsResp.payload.map (·.name)) st_item.fromString
          ≠ new_label →
      oldStatusLabel (env.repoLabelsResp.payload.map (·.name)) st_item.fromString
          ∉ L2) := by
  have hspec := computeNewLabels_spec (env.repoLabelsResp.payload.map (·.name))
    env.ghIssueResp.payload.labels st_item.fromString st_item.toString
    new_label L2 hnew hL
  refine ⟨?_, hspec.1, ⟨hspec.2.1, hspec.2.2.1, hspec.2.2.2.1⟩,
          hspec.2.2.2.2.1, hspec.2.2.2.2.2⟩
  have hrun : jira_issue_status_changed cf lenv env issue changelog
      = (.ok ("Changed labels of PR #" ++ optIntStr (github_pr_num cf lenv issue)
              ++ " to " ++ listToStr L2),
         [Call.getGithubIssue (pyReplace pr_url "pulls" "issues"),
          Call.getRepoLabels (optStr (github_pr_repo cf lenv issue)),
          Call.patchLabels (pyReplace pr_url "pulls" "issues") L2]) := by
    unfold jira_issue_status_changed
    rw [hurl]
    simp only [hitem, hgh, hlab, hupd, hL]
    simp
  rw [hrun]
  simp [Call.isWrite]

/-- Concrete label-branch environment for the C1 witness: the pull request
carries labels bug and Open, the catalog offers Open and Merged. -/
def wStatusEnv : StatusEnv :=
  ⟨⟨true, "", ⟨"open", "alice", ["bug", "Open"]⟩⟩,
   ⟨true, "", [⟨"Open", "u1"⟩, ⟨"Merged", "u2"⟩]⟩, ⟨true, "", ()⟩⟩

/-- Witness for C1 at the spec's example: labels bug and Open, status change
Open to Merged with Merged in the catalog, patched result bug and Merged. -/
theorem c1_label_set_replace_witness :
    computeNewLabels ["Open", "Merged"] ["bug", "Open"] "Open" "Merged"
        = some ["bug", "Merged"] ∧
    (jira_issue_status_changed wCf wLenv0 wStatusEnv wRejIssue
        [⟨"status", "Open", "Merged"⟩]).2.filter Call.isWrite
      = [Call.patchLabels "/repos/edx/edx-platform/issues/123" ["bug", "Merged"]] ∧
    "Merged" ∈ (["bug", "Merged"] : List String) ∧
    "bug" ∈ (["bug", "Merged"] : List String) ∧
    "Open" ∉ (["bug", "Merged"] : List String) := by
  have h := c1_label_set_replace wCf wLenv0 wStatusEnv wRejIssue
    [⟨"status", "Open", "Merged"⟩] ⟨"status", "Open", "Merged"⟩
    "/repos/edx/edx-platform/pulls/123" "Merged" ["bug", "Merged"]
    rfl rfl rfl rfl rfl rfl rfl
  exact ⟨rfl, h.1.trans rfl, h.2.2.1.1,
         h.2.1 "bug" (by simp [wStatusEnv]) (by decide) (by decide), by decide⟩

/-- Claim C7: when the triage decision allows an automatic transition and the
transitions fetch succeeds, the handler selects "Open" when offered, else
"Design Backlog" when offered, else fails with a `ConfigurationError`
carrying the offered transition names; on success the trace contains exactly
one write, the selected transition execution. -/
theorem c7_transition_selection (env : IssueOpenedEnv) (issue : JIssue)
    (hst : should_transition { groupsResp := env.groupsResp } issue
           = (.ok true, [Call.getUserGroups issue.creatorSelf]))
    (htr : env.transitionsResp.ok = true) :
    ((env.transitionsResp.payload.map (·.name)).contains "Open" = true →
      env.transitionPostResp.ok = true →
      issue_opened env issue
        = (.ok "Transitioned to Open",
           [Call.getUserGroups issue.creatorSelf,
            Call.getTransitions (issue.self ++ "/transitions"),
            Call.postTransition (issue.self ++ "/transitions")
              ((dictLookup env.transitionsResp.payload "Open").getD "")]) ∧
      (issue_opened env issue).2.filter Call.isWrite
        = [Call.postTransition (issue.self ++ "/transitions")
             ((dictLookup env.transitionsResp.payload "Open").getD "")]) ∧
    ((env.transitionsResp.payload.map (·.name)).contains "Open" = false →
      (env.transitionsResp.payload.map (·.name)).contains "Design Backlog" = true →
      env.transitionPostResp.ok = true →
      issue_opened env issue
        = (.ok "Transitioned to Open",
           [Call.getUserGroups issue.creatorSelf,
            Call.getTransitions (issue.self ++ "/transitions"),
            Call.postTransition (issue.self ++ "/transitions")
              ((dictLookup env.transitionsResp.payload "Design Backlog").getD "")]) ∧
      (issue_opened env issue).2.filter Call.isWrite
        = [Call.postTransition (issue.self ++ "/transitions")
             ((dictLookup env.transitionsResp.payload "Design Backlog").getD "")]) ∧
    ((env.transitionsResp.payload.map (·.name)).contains "Open" = false →
      (env.transitionsResp.payload.map (·.name)).contains "Design Backlog" = false →
      issue_opened env issue
        = (.error (.ConfigurationError (env.transitionsResp.payload.map (·.name))),
           [Call.getUserGroups issue.creatorSelf,
            Call.getTransitions (issue.self ++ "/transitions")]) ∧
      (issue_opened env issue).2.filter Call.isWrite = []) := by
  refine ⟨?_, ?_, ?_⟩
  · intro hopen hpost
    have h1 : ∃ a ∈ env.transitionsResp.payload, a.name = "Open" := by
      simpa using hopen
    have hrun : issue_opened env issue
        = (.ok "Transitioned to Open",
           [Call.getUserGroups issue.creatorSelf,
            Call.getTransitions (issue.self ++ "/transitions"),
            Call.postTransition (issue.self ++ "/transitions")
              ((dictLookup env.transitionsResp.payload "Open").getD "")]) := by
      unfold issue_opened
      rw [hst]
      simp [htr, h1, hpost]
    exact ⟨hrun, by rw [hrun]; simp [Call.isWrite]⟩
  · intro hopen hdb hpost
    have h1 : ¬∃ a ∈ env.transitionsResp.payload, a.name = "Open" := by
      simpa using hopen
    have h2 : ∃ a ∈ env.transitionsResp.payload, a.name = "Design Backlog" := by
      simpa using hdb
    have hrun : issue_opened env issue
        = (.ok "Transitioned to Open",
           [Call.getUserGroups issue.creatorSelf,
            Call.getTransitions (issue.self ++ "/transitions"),
            Call.postTransition (issue.self ++ "/transitions")
              ((dictLookup env.transitionsResp.payload "Design Backlog").getD "")]) := by
      unfold issue_opened
      rw [hst]
      simp [htr, h1, h2, hpost]
    exact ⟨hrun, by rw [hrun]; simp [Call.isWrite]⟩
  · intro hopen hdb
    have h1 : ¬∃ a ∈ env.transitionsResp.payload, a.name = "Open" := by
      simpa using hopen
    have h2 : ¬∃ a ∈ env.transitionsResp.payload, a.name = "Design Backlog" := by
      simpa using hdb
    have hrun : issue_opened env issue
        = (.error (.ConfigurationError (env.transitionsResp.payload.map (·.name))),
           [Call.getUserGroups issue.creatorSelf,
            Call.getTransitions (issue.self ++ "/transitions")]) := by
      unfold issue_opened
      rw [hst]
      simp [htr, h1, h2]
    exact ⟨hrun, by rw [hrun]; simp [Call.isWrite]⟩

/-- Concrete MOB subtask created by an exempt creator, for the C7 witness. -/
def wMobSub : JIssue :=
  ⟨"MOB-7", "https://j/i/7", "Needs Triage", "MOB", true,
   "https://j/u/c", "c", "C", fun _ => none, none⟩

/-- Witness for C7: with "Open" among the offered transitions, exactly one
transition write is executed and the outcome is the transitioned message. -/
theorem c7_transition_selection_witness :
    issue_opened
        ⟨⟨true, "", ["edx-employees"]⟩,
         ⟨true, "", [⟨"Open", "11"⟩, ⟨"Close", "12"⟩]⟩, ⟨true, "", ()⟩⟩ wMobSub
      = (.ok "Transitioned to Open",
         [Call.getUserGroups "https://j/u/c",
          Call.getTransitions "https://j/i/7/transitions",
          Call.postTransition "https://j/i/7/transitions" "11"]) ∧
    (issue_opened
        ⟨⟨true, "", ["edx-employees"]⟩,
         ⟨true, "", [⟨"Open", "11"⟩, ⟨"Close", "12"⟩]⟩, ⟨true, "", ()⟩⟩ wMobSub).2.filter
        Call.isWrite
      = [Call.postTransition "https://j/i/7/transitions" "11"] := by
  have h := (c7_transition_selection
      ⟨⟨true, "", ["edx-employees"]⟩,
       ⟨true, "", [⟨"Open", "11"⟩, ⟨"Close", "12"⟩]⟩, ⟨true, "", ()⟩⟩
      wMobSub rfl rfl).1 rfl rfl
  exact ⟨h.1.trans rfl, h.2.trans rfl⟩

/-- Claim C9: an issue-updated event carrying a comment object is routed to
the comment-parsing collaborator and its result is returned unchanged; since
the whole output (result and call trace) is the collaborator's, neither the
rejection branch nor the label branch runs, whatever the changelog holds. -/
theorem c9_comment_routed (cf : CustomFieldIds) (lenv : LinkEnv)
    (env : UpdatedEnv)
    (commentHandler : JIssue → Comment → Except Err String × List Call)
    (event : UpdatedEvent) (c : Comment)
    (hc : event.comment = some c) :
    jira_issue_updated cf lenv env commentHandler event
      = commentHandler event.issue c := by
  unfold jira_issue_updated
  rw [hc]

/-- Concrete comment collaborator used by the dispatcher witnesses. -/
def wCh : JIssue → Comment → Except Err String × List Call :=
  fun i _ => (.ok ("comment on " ++ i.key), [])

/-- Witness for C9: a comment-bearing event on a non-subtask OSPR issue
whose changelog also carries a status change to "Rejected" still goes to the
collaborator, with no rejection or label activity in the trace. -/
theorem c9_comment_routed_witness :
    jira_issue_updated wCf wLenv0
        ⟨⟨true, "", [⟨"Merged", "u2"⟩]⟩, wRejClosedEnv, wStatusEnv⟩ wCh
        ⟨wRejIssue, some [⟨"status", "Open", "Rejected"⟩], some ⟨"body"⟩⟩
      = (.ok "comment on OSPR-9", []) :=
  (c9_comment_routed wCf wLenv0
      ⟨⟨true, "", [⟨"Merged", "u2"⟩]⟩, wRejClosedEnv, wStatusEnv⟩ wCh
      ⟨wRejIssue, some [⟨"status", "Open", "Rejected"⟩], some ⟨"body"⟩⟩
      ⟨"body"⟩ rfl).trans rfl

/-- Claim C10: when a changelog contains several "status" items, both the
dispatcher and the label branch use only the first one; two changelogs whose
first status items agree yield identical handler output. -/
theorem c10_first_status_item (cf : CustomFieldIds) (lenv : LinkEnv)
    (env : UpdatedEnv)
    (commentHandler : JIssue → Comment → Except Err String × List Call)
    (issue : JIssue) (cl1 cl2 : List ChangeItem)
    (h : (cl1.filter (fun item => item.field = "status")).head?
       = (cl2.filter (fun item => item.field = "status")).head?) :
    jira_issue_updated cf lenv env commentHandler ⟨issue, some cl1, none⟩
      = jira_issue_updated cf lenv env commentHandler ⟨issue, some cl2, none⟩ := by
  unfold jira_issue_updated jira_issue_status_changed
  dsimp only
  rw [h]

/-- Witness for C10: appending a second status item (whose new value
"Rejected" would trigger the rejection branch if it were consulted) does not
change the handler's output. -/
theorem c10_first_status_item_witness :
    jira_issue_updated wCf wLenv0
        ⟨⟨true, "", [⟨"Merged", "u2"⟩]⟩, wRejClosedEnv, wStatusEnv⟩ wCh
        ⟨wRejIssue,
         some [⟨"status", "Open", "Merged"⟩, ⟨"status", "Merged", "Rejected"⟩], none⟩
      = jira_issue_updated wCf wLenv0
          ⟨⟨true, "", [⟨"Merged", "u2"⟩]⟩, wRejClosedEnv, wStatusEnv⟩ wCh
          ⟨wRejIssue, some [⟨"status", "Open", "Merged"⟩], none⟩ :=
  c10_first_status_item wCf wLenv0
    ⟨⟨true, "", [⟨"Merged", "u2"⟩]⟩, wRejClosedEnv, wStatusEnv⟩ wCh wRejIssue
    [⟨"status", "Open", "Merged"⟩, ⟨"status", "Merged", "Rejected"⟩]
    [⟨"status", "Open", "Merged"⟩] rfl
